import Mathlib

/-!
Verification of the completion character-device module.

The module (completion.rs) exposes a character device backed by a single
static 4096-byte buffer (GLOBALMEM_BUF) protected by a mutex, and a single
process-wide completion object published through an atomic pointer
(COMPLETION_DATA).  `write` signals the completion and copies user data
into the buffer; `read` waits on the completion and copies buffer data out.
A minimal C variant (completion.c) has the same gate but no buffer.

The shallow embedding below models the buffer as a `List Nat` of bytes,
the completion gate as a state plus a queue of blocked readers, and each
file operation as a pure function on the device state.  `write` also
returns the list of readers released by its signal and a trace of the
events it performs, in source order, so that ordering claims can be stated.
-/

deriving instance DecidableEq for Except

namespace Completion

/-- Buffer capacity: `GLOBALMEM_SIZE = 0x1000` (completion.rs line 29). -/
def GLOBALMEM_SIZE : Nat := 0x1000

/-- Error codes surfaced by the file operations (`Err(EINVAL)` on write). -/
inductive Error where
  | EINVAL
deriving DecidableEq

/-- The two conceptual gate states of the completion object. -/
inductive GateState where
  | UNSIGNALED
  | SIGNALED
deriving DecidableEq

/-- The completion gate: its state together with the queue of readers
currently blocked in `wait_for_completion`. -/
structure Gate where
  state : GateState
  waiters : List Nat
deriving DecidableEq

/-- Modelled from the spec: the semantics of the kernel primitive
`bindings::complete` is not part of this repository; the spec describes
`signal()` as non-blocking, transitioning the Gate to SIGNALED and
releasing all current waiters as a broadcast.  Returns the new gate and
the list of released readers. -/
def Gate.signal (g : Gate) : Gate × List Nat :=
  ({ state := GateState.SIGNALED, waiters := [] }, g.waiters)

/-- Modelled from the spec: the semantics of the kernel primitive
`bindings::wait_for_completion` is not part of this repository; the spec
describes `wait()` as blocking the caller until the next signal, even if
the Gate is already SIGNALED at call time (no latching).  The caller `r`
joins the wait queue. -/
def Gate.wait (g : Gate) (r : Nat) : Gate :=
  { g with waiters := g.waiters ++ [r] }

/-- Reader `r` is currently blocked on the gate. -/
def Gate.blocked (g : Gate) (r : Nat) : Bool :=
  g.waiters.contains r

/-- Events performed by a `write` call, in source order. -/
inductive Ev where
  | signal
  | lock
  | bufferWrite
  | err
deriving DecidableEq

/-- The process-wide device state: the static mutex-protected buffer
GLOBALMEM_BUF, the completion gate, and whether the COMPLETION_DATA
atomic pointer has been published (is non-null). -/
structure CompletionDev where
  buffer : List Nat
  gate : Gate
  published : Bool
deriving DecidableEq

/-- Copy `data` into `buf` starting at `offset` (the `read_raw` copy of
completion.rs line 124). -/
def writeBytes (buf : List Nat) (offset : Nat) (data : List Nat) : List Nat :=
  buf.take offset ++ data ++ buf.drop (offset + data.length)

/-- Embedding of `file::Operations::write` (completion.rs lines 94-128).
In source order: if COMPLETION_DATA is published, `complete` is called
(lines 103-107); then the buffer lock is taken (line 109); then the offset
is checked against GLOBALMEM_SIZE, returning `Err(EINVAL)` if out of range
(lines 113-115); otherwise `data_to_write = min(reader.len, remaining)`
bytes are copied into the buffer at the offset and that count is returned
(lines 118-127).  Returns the new state, the readers released by the
signal, the event trace, and the result. -/
def fwrite (st : CompletionDev) (offset : Nat) (data : List Nat) :
    CompletionDev × List Nat × List Ev × Except Error Nat :=
  let sg := if st.published then Gate.signal st.gate else (st.gate, [])
  let tr0 : List Ev := if st.published then [Ev.signal] else []
  if GLOBALMEM_SIZE ≤ offset then
    ({ st with gate := sg.1 }, sg.2, tr0 ++ [Ev.lock, Ev.err],
      Except.error Error.EINVAL)
  else
    let n := min data.length (GLOBALMEM_SIZE - offset)
    ({ st with gate := sg.1, buffer := writeBytes st.buffer offset (data.take n) },
      sg.2, tr0 ++ [Ev.lock, Ev.bufferWrite], Except.ok n)

/-- Embedding of the blocking phase of `file::Operations::read`
(completion.rs lines 139-143): if COMPLETION_DATA is published the calling
reader `r` waits on the completion (joins the gate's wait queue);
otherwise the wait is skipped entirely and the state is unchanged. -/
def freadEnter (st : CompletionDev) (r : Nat) : CompletionDev :=
  if st.published then { st with gate := Gate.wait st.gate r } else st

/-- Embedding of the copy phase of `file::Operations::read`
(completion.rs lines 145-168), performed after the wait: under the lock,
if the offset is at or past GLOBALMEM_SIZE return `Ok(0)` (EOF, not an
error); otherwise copy `data_to_read = min(writer.len, remaining)` bytes
from the buffer at the offset and return that count.  `outLen` is the
destination writer capacity; the result carries the copied bytes and the
returned count. -/
def freadData (st : CompletionDev) (offset outLen : Nat) :
    Except Error (List Nat × Nat) :=
  if GLOBALMEM_SIZE ≤ offset then Except.ok ([], 0)
  else
    let n := min outLen (GLOBALMEM_SIZE - offset)
    Except.ok ((st.buffer.drop offset).take n, n)

/-- The one static buffer identity; there is exactly one in the module
(GLOBALMEM_BUF, completion.rs lines 33-35). -/
inductive BufRef where
  | globalmemBuf
deriving DecidableEq

/-- A per-open session: `RustFile` holds a reference to the global buffer
(completion.rs lines 75-78). -/
structure RustFile where
  inner : BufRef
deriving DecidableEq

/-- Embedding of `file::Operations::open` (completion.rs lines 86-92):
whichever of the two registered minor devices is opened, the session binds
to the single static GLOBALMEM_BUF. -/
def RustFile.fopen (_minor : Fin 2) : RustFile :=
  { inner := BufRef.globalmemBuf }

/-- Module-load state: GLOBALMEM_BUF is statically zero-filled
(completion.rs lines 33-35) and COMPLETION_DATA starts null (line 27), so
nothing is published yet. -/
def loadState : CompletionDev :=
  { buffer := List.replicate GLOBALMEM_SIZE 0
    gate := { state := GateState.UNSIGNALED, waiters := [] }
    published := false }

/-- Result of module initialization: how many minor device identities were
registered, and the resulting device state. -/
structure ModuleInit where
  minorCount : Nat
  st : CompletionDev

/-- Embedding of `Completiondev::init` (completion.rs lines 183-200):
registers the same `RustFile` operations twice on a
`chrdev::Registration<2>` (two aliased minor devices), then creates the
completion data and publishes it through COMPLETION_DATA. -/
def Completiondev.init : ModuleInit :=
  { minorCount := 2
    st := { loadState with published := true } }

/-- The device state right after `Completiondev::init` has run. -/
def startState : CompletionDev := Completiondev.init.st

/-- Embedding of `completion_write` from the minimal C variant
(completion.c lines 44-55): it signals the completion and returns `count`;
there is no buffer and no lock in this variant.  Returns the new gate, the
released readers, the event trace and the returned byte count. -/
def completion_write (g : Gate) (count : Nat) : Gate × List Nat × List Ev × Nat :=
  ((Gate.signal g).1, (Gate.signal g).2, [Ev.signal], count)

/-- Embedding of `completion_read` from the minimal C variant
(completion.c lines 28-41): the reader waits on the completion and then
returns 0 bytes. -/
def completion_read (g : Gate) (r : Nat) : Gate × Nat :=
  (Gate.wait g r, 0)

/-! ### Helper lemmas about the buffer copy -/

theorem writeBytes_eq (buf data : List Nat) (off : Nat) :
    writeBytes buf off data =
      buf.take off ++ (data ++ buf.drop (off + data.length)) := by
  unfold writeBytes
  rw [List.append_assoc]

theorem writeBytes_length (buf data : List Nat) (off : Nat)
    (h : off + data.length ≤ buf.length) :
    (writeBytes buf off data).length = buf.length := by
  unfold writeBytes
  simp only [List.length_append, List.length_take, List.length_drop]
  omega

theorem writeBytes_getElem?_lt (buf data : List Nat) (off i : Nat)
    (hi : i < off) (hoff : off ≤ buf.length) :
    (writeBytes buf off data)[i]? = buf[i]? := by
  have h1 : i < (buf.take off).length := by
    rw [List.length_take_of_le hoff]; exact hi
  rw [writeBytes_eq, List.getElem?_append_left h1, List.getElem?_take_of_lt hi]

theorem writeBytes_getElem?_mid (buf data : List Nat) (off i : Nat)
    (hi : i < data.length) (hoff : off ≤ buf.length) :
    (writeBytes buf off data)[off + i]? = data[i]? := by
  have h1 : (buf.take off).length ≤ off + i := by
    rw [List.length_take_of_le hoff]; omega
  rw [writeBytes_eq, List.getElem?_append_right h1, List.length_take_of_le hoff,
    Nat.add_sub_cancel_left, List.getElem?_append_left hi]

theorem writeBytes_getElem?_ge (buf data : List Nat) (off i : Nat)
    (hi : off + data.length ≤ i) (hoff : off ≤ buf.length) :
    (writeBytes buf off data)[i]? = buf[i]? := by
  have h1 : (buf.take off).length ≤ i := by
    rw [List.length_take_of_le hoff]; omega
  have h2 : data.length ≤ i - (buf.take off).length := by
    rw [List.length_take_of_le hoff]; omega
  rw [writeBytes_eq, List.getElem?_append_right h1, List.getElem?_append_right h2,
    List.getElem?_drop, List.length_take_of_le hoff]
  have h3 : off + data.length + (i - off - data.length) = i := by omega
  rw [h3]

theorem writeBytes_drop_take (buf data : List Nat) (off : Nat)
    (hoff : off ≤ buf.length) :
    ((writeBytes buf off data).drop off).take data.length = data := by
  rw [writeBytes_eq, List.drop_left' (List.length_take_of_le hoff),
    List.take_left' rfl]

/-! ### Projection lemmas for the write operation -/

theorem fwrite_gate (st : CompletionDev) (off : Nat) (data : List Nat) :
    (fwrite st off data).1.gate =
      (if st.published then Gate.signal st.gate else (st.gate, [])).1 := by
  unfold fwrite
  split <;> split <;> simp [writeBytes]

theorem fwrite_released (st : CompletionDev) (off : Nat) (data : List Nat) :
    (fwrite st off data).2.1 =
      (if st.published then Gate.signal st.gate else (st.gate, [])).2 := by
  unfold fwrite
  split <;> split <;> simp [writeBytes]

theorem fwrite_published (st : CompletionDev) (off : Nat) (data : List Nat) :
    (fwrite st off data).1.published = st.published := by
  unfold fwrite
  split <;> split <;> simp [writeBytes]

theorem fwrite_trace (st : CompletionDev) (off : Nat) (data : List Nat) :
    (fwrite st off data).2.2.1 =
      (if st.published then [Ev.signal] else []) ++
        (if GLOBALMEM_SIZE ≤ off then [Ev.lock, Ev.err]
          else [Ev.lock, Ev.bufferWrite]) := by
  unfold fwrite
  split <;> split <;> simp [writeBytes]

theorem fwrite_buffer (st : CompletionDev) (off : Nat) (data : List Nat) :
    (fwrite st off data).1.buffer =
      if GLOBALMEM_SIZE ≤ off then st.buffer
      else writeBytes st.buffer off
        (data.take (min data.length (GLOBALMEM_SIZE - off))) := by
  unfold fwrite
  split <;> split <;> simp [writeBytes]

theorem fwrite_result (st : CompletionDev) (off : Nat) (data : List Nat) :
    (fwrite st off data).2.2.2 =
      if GLOBALMEM_SIZE ≤ off then Except.error Error.EINVAL
      else Except.ok (min data.length (GLOBALMEM_SIZE - off)) := by
  unfold fwrite
  split <;> split <;> simp [writeBytes]

theorem freadEnter_buffer (st : CompletionDev) (r : Nat) :
    (freadEnter st r).buffer = st.buffer := by
  unfold freadEnter
  split <;> rfl

theorem freadEnter_published (st : CompletionDev) (r : Nat) :
    (freadEnter st r).published = st.published := by
  unfold freadEnter
  split <;> rfl

/-! ### Claim theorems -/

/-- C4: for every offset below the capacity and every data, write computes
n = min(len(data), capacity - offset), copies exactly n bytes into the
buffer at that offset, and returns n (a short write, not an error, when the
data exceeds the remaining capacity); in particular, with capacity 4096, a
write of 10 bytes at offset 4090 returns 6. -/
theorem C4_short_write :
    (∀ (st : CompletionDev) (off : Nat) (data : List Nat),
      off < GLOBALMEM_SIZE → st.buffer.length = GLOBALMEM_SIZE →
      (fwrite st off data).2.2.2 =
        Except.ok (min data.length (GLOBALMEM_SIZE - off)) ∧
      (∀ i, i < min data.length (GLOBALMEM_SIZE - off) →
        (fwrite st off data).1.buffer[off + i]? = data[i]?)) ∧
    (fwrite startState 4090 [0, 1, 2, 3, 4, 5, 6, 7, 8, 9]).2.2.2 =
      Except.ok 6 := by
  refine ⟨?_, rfl⟩
  intro st off data hoff hlen
  have hnot : ¬ GLOBALMEM_SIZE ≤ off := by omega
  refine ⟨?_, ?_⟩
  · rw [fwrite_result, if_neg hnot]
  · intro i hi
    have hn : min data.length (GLOBALMEM_SIZE - off) ≤ data.length :=
      Nat.min_le_left _ _
    have h1 : i < (data.take (min data.length (GLOBALMEM_SIZE - off))).length := by
      rw [List.length_take]; omega
    have h2 : off ≤ st.buffer.length := by omega
    rw [fwrite_buffer, if_neg hnot,
      writeBytes_getElem?_mid st.buffer _ off i h1 h2,
      List.getElem?_take_of_lt hi]

/-- C4 witness: the general part of C4 instantiated at the start state,
offset 0 and a one-byte payload. -/
theorem C4_short_write_witness :
    (0 < GLOBALMEM_SIZE ∧ startState.buffer.length = GLOBALMEM_SIZE) ∧
    ((fwrite startState 0 [7]).2.2.2 =
        Except.ok (min (List.length [7]) (GLOBALMEM_SIZE - 0)) ∧
      (∀ i, i < min (List.length [7]) (GLOBALMEM_SIZE - 0) →
        (fwrite startState 0 [7]).1.buffer[0 + i]? = [7][i]?)) := by
  have hlen : startState.buffer.length = GLOBALMEM_SIZE := by
    simp [startState, Completiondev.init, loadState]
  exact ⟨⟨by norm_num [GLOBALMEM_SIZE], hlen⟩,
    C4_short_write.1 startState 0 [7] (by norm_num [GLOBALMEM_SIZE]) hlen⟩

/-- C5: for every read call, if the offset is at or past the capacity the
returned count is 0 regardless of the device state (an Ok end-of-data
outcome, not an error); otherwise the read returns
n = min(capacity(out), capacity - offset) and copies exactly n bytes from
the buffer at the offset into the output. -/
theorem C5_read_eof_and_copy :
    ∀ (st : CompletionDev) (off outLen : Nat),
      (GLOBALMEM_SIZE ≤ off → freadData st off outLen = Except.ok ([], 0)) ∧
      (off < GLOBALMEM_SIZE → st.buffer.length = GLOBALMEM_SIZE →
        ∃ bytes, freadData st off outLen =
            Except.ok (bytes, min outLen (GLOBALMEM_SIZE - off)) ∧
          bytes.length = min outLen (GLOBALMEM_SIZE - off) ∧
          (∀ i, i < min outLen (GLOBALMEM_SIZE - off) →
            bytes[i]? = st.buffer[off + i]?)) := by
  intro st off outLen
  constructor
  · intro h
    rw [freadData, if_pos h]
  · intro hoff hlen
    have hnot : ¬ GLOBALMEM_SIZE ≤ off := by omega
    refine ⟨(st.buffer.drop off).take (min outLen (GLOBALMEM_SIZE - off)),
      ?_, ?_, ?_⟩
    · rw [freadData, if_neg hnot]
    · rw [List.length_take, List.length_drop]; omega
    · intro i hi
      rw [List.getElem?_take_of_lt hi, List.getElem?_drop]

/-- C5 witness: both branches of C5 instantiated, the end-of-data branch at
offset 4096 and the copy branch at offset 0 with output capacity 3. -/
theorem C5_read_eof_and_copy_witness :
    (GLOBALMEM_SIZE ≤ 4096 ∧
      freadData startState 4096 5 = Except.ok ([], 0)) ∧
    (0 < GLOBALMEM_SIZE ∧ startState.buffer.length = GLOBALMEM_SIZE ∧
      ∃ bytes, freadData startState 0 3 =
          Except.ok (bytes, min 3 (GLOBALMEM_SIZE - 0)) ∧
        bytes.length = min 3 (GLOBALMEM_SIZE - 0) ∧
        (∀ i, i < min 3 (GLOBALMEM_SIZE - 0) →
          bytes[i]? = startState.buffer[0 + i]?)) := by
  have hlen : startState.buffer.length = GLOBALMEM_SIZE := by
    simp [startState, Completiondev.init, loadState]
  have h1 : GLOBALMEM_SIZE ≤ 4096 := by norm_num [GLOBALMEM_SIZE]
  have h2 : 0 < GLOBALMEM_SIZE := by norm_num [GLOBALMEM_SIZE]
  exact ⟨⟨h1, (C5_read_eof_and_copy startState 4096 5).1 h1⟩,
    ⟨h2, hlen, (C5_read_eof_and_copy startState 0 3).2 h2 hlen⟩⟩

/-- C6: round-trip: for every valid offset below the capacity and every
data, write(offset, data) writes exactly min(len(data), capacity - offset)
bytes, and a subsequent read from the same offset returns those same bytes
unchanged. -/
theorem C6_round_trip :
    ∀ (st : CompletionDev) (off : Nat) (data : List Nat),
      off < GLOBALMEM_SIZE → st.buffer.length = GLOBALMEM_SIZE →
      (fwrite st off data).2.2.2 =
        Except.ok (min data.length (GLOBALMEM_SIZE - off)) ∧
      freadData (fwrite st off data).1 off
          (min data.length (GLOBALMEM_SIZE - off)) =
        Except.ok (data.take (min data.length (GLOBALMEM_SIZE - off)),
          min data.length (GLOBALMEM_SIZE - off)) := by
  intro st off data hoff hlen
  have hnot : ¬ GLOBALMEM_SIZE ≤ off := by omega
  set n := min data.length (GLOBALMEM_SIZE - off) with hn
  refine ⟨by rw [fwrite_result, if_neg hnot], ?_⟩
  have hmin : min n (GLOBALMEM_SIZE - off) = n := by
    apply Nat.min_eq_left; omega
  have htl : (data.take n).length = n := by
    rw [List.length_take]
    apply Nat.min_eq_left
    omega
  have hdt : ((writeBytes st.buffer off (data.take n)).drop off).take n =
      data.take n := by
    have h := writeBytes_drop_take st.buffer (data.take n) off (by omega)
    rwa [htl] at h
  have hbuf : (fwrite st off data).1.buffer =
      writeBytes st.buffer off (data.take n) := by
    rw [fwrite_buffer, if_neg hnot]
  simp only [freadData, if_neg hnot, hbuf, ← hn, hmin, hdt]

/-- C6 witness: the round trip instantiated at the start state, offset 0
and a two-byte payload. -/
theorem C6_round_trip_witness :
    (0 < GLOBALMEM_SIZE ∧ startState.buffer.length = GLOBALMEM_SIZE) ∧
    ((fwrite startState 0 [104, 105]).2.2.2 =
        Except.ok (min (List.length [104, 105]) (GLOBALMEM_SIZE - 0)) ∧
      freadData (fwrite startState 0 [104, 105]).1 0
          (min (List.length [104, 105]) (GLOBALMEM_SIZE - 0)) =
        Except.ok ((List.take
            (min (List.length [104, 105]) (GLOBALMEM_SIZE - 0)) [104, 105]),
          min (List.length [104, 105]) (GLOBALMEM_SIZE - 0))) := by
  have hlen : startState.buffer.length = GLOBALMEM_SIZE := by
    simp [startState, Completiondev.init, loadState]
  have h2 : 0 < GLOBALMEM_SIZE := by norm_num [GLOBALMEM_SIZE]
  exact ⟨⟨h2, hlen⟩, C6_round_trip startState 0 [104, 105] h2 hlen⟩

/-- C10: frame: a successful write modifies only the buffer bytes in
[offset, offset + n) with n = min(len(data), capacity - offset), leaving
every byte outside that range unchanged; the blocking phase of read leaves
the buffer untouched (and the copy phase of read is a pure function that
produces no buffer at all). -/
theorem C10_frame :
    ∀ (st : CompletionDev) (off i r : Nat) (data : List Nat),
      off < GLOBALMEM_SIZE → st.buffer.length = GLOBALMEM_SIZE →
      ((i < off ∨ off + min data.length (GLOBALMEM_SIZE - off) ≤ i →
        (fwrite st off data).1.buffer[i]? = st.buffer[i]?) ∧
      (freadEnter st r).buffer = st.buffer) := by
  intro st off i r data hoff hlen
  have hnot : ¬ GLOBALMEM_SIZE ≤ off := by omega
  refine ⟨?_, freadEnter_buffer st r⟩
  intro hrange
  rw [fwrite_buffer, if_neg hnot]
  have htl : (data.take (min data.length (GLOBALMEM_SIZE - off))).length =
      min data.length (GLOBALMEM_SIZE - off) := by
    rw [List.length_take]
    apply Nat.min_eq_left
    apply Nat.min_le_left
  rcases hrange with hlt | hge
  · exact writeBytes_getElem?_lt st.buffer _ off i hlt (by omega)
  · apply writeBytes_getElem?_ge st.buffer _ off i _ (by omega)
    rw [htl]; omega

/-- C2 counterexample: at the start state (completion published, gate
UNSIGNALED), a write at offset 4096 fails with EINVAL and leaves the
buffer untouched, but it does perform the Gate signal: the signal event is
in the trace and the gate has transitioned to SIGNALED, because the code
issues the signal before the offset check.  This refutes the part of the
claim stating that the error path performs no Gate signal. -/
theorem C2_counterexample :
    (fwrite startState 4096 [1]).2.2.2 = Except.error Error.EINVAL ∧
    (fwrite startState 4096 [1]).1.buffer = startState.buffer ∧
    Ev.signal ∈ (fwrite startState 4096 [1]).2.2.1 ∧
    (fwrite startState 4096 [1]).1.gate.state = GateState.SIGNALED ∧
    startState.gate.state = GateState.UNSIGNALED :=
  ⟨rfl, rfl, by decide, rfl, rfl⟩

/-- C2 (amended): for every call write(offset, _) with offset at or past
the capacity (4096), the operation fails with OutOfRange (EINVAL) and
performs no mutation of the buffer; however the Gate signal is still
performed whenever the completion singleton is published, because the
code signals before the offset check (only when the singleton is
unpublished does the error path leave the Gate untouched). -/
theorem C2_error_path :
    ∀ (st : CompletionDev) (off : Nat) (data : List Nat),
      GLOBALMEM_SIZE ≤ off →
      (fwrite st off data).2.2.2 = Except.error Error.EINVAL ∧
      (fwrite st off data).1.buffer = st.buffer ∧
      (st.published = true →
        Ev.signal ∈ (fwrite st off data).2.2.1 ∧
        (fwrite st off data).2.1 = st.gate.waiters ∧
        (fwrite st off data).1.gate.state = GateState.SIGNALED) ∧
      (st.published = false →
        (fwrite st off data).1.gate = st.gate ∧
        Ev.signal ∉ (fwrite st off data).2.2.1 ∧
        (fwrite st off data).2.1 = []) := by
  intro st off data h
  refine ⟨by rw [fwrite_result, if_pos h], by rw [fwrite_buffer, if_pos h],
    ?_, ?_⟩
  · intro hp
    refine ⟨?_, ?_, ?_⟩
    · rw [fwrite_trace, if_pos hp, if_pos h]; simp
    · rw [fwrite_released, if_pos hp]; rfl
    · rw [fwrite_gate, if_pos hp]; rfl
  · intro hp
    have hp' : st.published ≠ true := by simp [hp]
    refine ⟨?_, ?_, ?_⟩
    · rw [fwrite_gate, if_neg hp']
    · rw [fwrite_trace, if_neg hp', if_pos h]; simp
    · rw [fwrite_released, if_neg hp']

/-- C2 witness: the amended error-path property instantiated at the start
state, offset 4096 and a one-byte payload. -/
theorem C2_error_path_witness :
    (GLOBALMEM_SIZE ≤ 4096) ∧
    ((fwrite startState 4096 [1]).2.2.2 = Except.error Error.EINVAL ∧
      (fwrite startState 4096 [1]).1.buffer = startState.buffer ∧
      (startState.published = true →
        Ev.signal ∈ (fwrite startState 4096 [1]).2.2.1 ∧
        (fwrite startState 4096 [1]).2.1 = startState.gate.waiters ∧
        (fwrite startState 4096 [1]).1.gate.state = GateState.SIGNALED) ∧
      (startState.published = false →
        (fwrite startState 4096 [1]).1.gate = startState.gate ∧
        Ev.signal ∉ (fwrite startState 4096 [1]).2.2.1 ∧
        (fwrite startState 4096 [1]).2.1 = [])) := by
  have h : GLOBALMEM_SIZE ≤ 4096 := by norm_num [GLOBALMEM_SIZE]
  exact ⟨h, C2_error_path startState 4096 [1] h⟩

/-- C9: while the process-wide completion singleton pointer is still null
(before init publishes it), read performs no Gate wait (the state is
unchanged, so the caller does not block) and write performs no Gate signal
(gate unchanged, nobody released, no signal event); both operations still
perform their buffer work and return the same results as they would with
the singleton published. -/
theorem C9_unpublished_no_gate_ops :
    ∀ (st : CompletionDev) (r off outLen : Nat) (data : List Nat),
      st.published = false →
      freadEnter st r = st ∧
      (fwrite st off data).1.gate = st.gate ∧
      (fwrite st off data).2.1 = [] ∧
      Ev.signal ∉ (fwrite st off data).2.2.1 ∧
      (fwrite st off data).2.2.2 =
        (fwrite { st with published := true } off data).2.2.2 ∧
      (fwrite st off data).1.buffer =
        (fwrite { st with published := true } off data).1.buffer ∧
      freadData st off outLen =
        freadData { st with published := true } off outLen := by
  intro st r off outLen data hp
  have hp' : st.published ≠ true := by simp [hp]
  refine ⟨?_, ?_, ?_, ?_, ?_, ?_, rfl⟩
  · rw [freadEnter, if_neg hp']
  · rw [fwrite_gate, if_neg hp']
  · rw [fwrite_released, if_neg hp']
  · rw [fwrite_trace, if_neg hp']
    split <;> simp
  · rw [fwrite_result, fwrite_result]
  · rw [fwrite_buffer, fwrite_buffer]

/-- C9 witness: the unpublished-state property instantiated at the
module-load state (singleton pointer still null), reader 3, offset 0 and a
one-byte payload. -/
theorem C9_unpublished_no_gate_ops_witness :
    loadState.published = false ∧
    (freadEnter loadState 3 = loadState ∧
      (fwrite loadState 0 [7]).1.gate = loadState.gate ∧
      (fwrite loadState 0 [7]).2.1 = [] ∧
      Ev.signal ∉ (fwrite loadState 0 [7]).2.2.1 ∧
      (fwrite loadState 0 [7]).2.2.2 =
        (fwrite { loadState with published := true } 0 [7]).2.2.2 ∧
      (fwrite loadState 0 [7]).1.buffer =
        (fwrite { loadState with published := true } 0 [7]).1.buffer ∧
      freadData loadState 0 5 =
        freadData { loadState with published := true } 0 5) :=
  ⟨rfl, C9_unpublished_no_gate_ops loadState 3 0 5 [7] rfl⟩

/-- C10 witness: the frame property instantiated at the start state,
offset 1, a one-byte payload and indices 0 (below) and 2 (above). -/
theorem C10_frame_witness :
    (1 < GLOBALMEM_SIZE ∧ startState.buffer.length = GLOBALMEM_SIZE) ∧
    ((0 < 1 ∨ 1 + min (List.length [9]) (GLOBALMEM_SIZE - 1) ≤ 0 →
        (fwrite startState 1 [9]).1.buffer[0]? = startState.buffer[0]?) ∧
      (freadEnter startState 3).buffer = startState.buffer) := by
  have hlen : startState.buffer.length = GLOBALMEM_SIZE := by
    simp [startState, Completiondev.init, loadState]
  have h2 : 1 < GLOBALMEM_SIZE := by norm_num [GLOBALMEM_SIZE]
  exact ⟨⟨h2, hlen⟩, C10_frame startState 1 0 3 [9] h2 hlen⟩

/-- C1: for every set of readers blocked on the gate at the moment a
write's signal executes, that single signal releases all of them and
exactly them (broadcast): the released list is exactly the wait queue and
the queue is emptied.  In the concrete scenario, readers 1 and 2 both
block after calling read(0); one write(0, "hi") releases exactly both, and
the subsequent data copy of each read returns "hi" (bytes 104, 105). -/
theorem C1_signal_broadcast :
    (∀ (st : CompletionDev) (off : Nat) (data : List Nat),
      st.published = true →
      (fwrite st off data).2.1 = st.gate.waiters ∧
      (fwrite st off data).1.gate.waiters = []) ∧
    (Gate.blocked (freadEnter (freadEnter startState 1) 2).gate 1 = true ∧
      Gate.blocked (freadEnter (freadEnter startState 1) 2).gate 2 = true ∧
      (fwrite (freadEnter (freadEnter startState 1) 2) 0 [104, 105]).2.1 =
        [1, 2] ∧
      freadData (fwrite (freadEnter (freadEnter startState 1) 2) 0
          [104, 105]).1 0 2 =
        Except.ok ([104, 105], 2)) := by
  refine ⟨?_, by decide, by decide, rfl, rfl⟩
  intro st off data hp
  constructor
  · rw [fwrite_released, if_pos hp]
    rfl
  · rw [fwrite_gate, if_pos hp]
    rfl

/-- C1 witness: the broadcast property instantiated at the start state,
offset 0 and a one-byte payload. -/
theorem C1_signal_broadcast_witness :
    startState.published = true ∧
    ((fwrite startState 0 [7]).2.1 = startState.gate.waiters ∧
      (fwrite startState 0 [7]).1.gate.waiters = []) :=
  ⟨rfl, C1_signal_broadcast.1 startState 0 [7] rfl⟩

/-- C3 counterexample: in the Rust-embedded variant, at the start state
with a valid write(0, "hi"), the signal event strictly precedes the
buffer-write event in the operation's trace.  This refutes the part of the
claim stating that the Rust-embedded variant signals after writing the
buffer (so released readers are in fact not guaranteed to observe the
just-written data). -/
theorem C3_counterexample :
    Ev.signal ∈ (fwrite startState 0 [104, 105]).2.2.1 ∧
    Ev.bufferWrite ∈ (fwrite startState 0 [104, 105]).2.2.1 ∧
    (fwrite startState 0 [104, 105]).2.2.1.indexOf Ev.signal <
      (fwrite startState 0 [104, 105]).2.2.1.indexOf Ev.bufferWrite := by
  refine ⟨by decide, by decide, by decide⟩

/-- C3 (amended): the two variants do not order buffer-write and signal
differently: both signal before any buffer write.  The minimal C version
signals and performs no buffer write at all, and the Rust-embedded variant
signals first as well — its trace is signal, then lock, then buffer
write — so readers released by the signal may wake before the data is
written. -/
theorem C3_signal_before_write :
    ∀ (st : CompletionDev) (off : Nat) (data : List Nat) (g : Gate)
      (count : Nat),
      st.published = true → off < GLOBALMEM_SIZE →
      (fwrite st off data).2.2.1 = [Ev.signal, Ev.lock, Ev.bufferWrite] ∧
      (completion_write g count).2.2.1 = [Ev.signal] ∧
      Ev.bufferWrite ∉ (completion_write g count).2.2.1 := by
  intro st off data g count hp hoff
  refine ⟨?_, rfl, by simp [completion_write]⟩
  rw [fwrite_trace, if_pos hp, if_neg (by omega : ¬ GLOBALMEM_SIZE ≤ off)]
  rfl

/-- C3 witness: the amended ordering property instantiated at the start
state, offset 0, payload "hi", and a fresh gate for the C variant. -/
theorem C3_signal_before_write_witness :
    (startState.published = true ∧ 0 < GLOBALMEM_SIZE) ∧
    ((fwrite startState 0 [104, 105]).2.2.1 =
        [Ev.signal, Ev.lock, Ev.bufferWrite] ∧
      (completion_write { state := GateState.UNSIGNALED, waiters := [] }
          5).2.2.1 = [Ev.signal] ∧
      Ev.bufferWrite ∉
        (completion_write { state := GateState.UNSIGNALED, waiters := [] }
          5).2.2.1) := by
  have h2 : 0 < GLOBALMEM_SIZE := by norm_num [GLOBALMEM_SIZE]
  exact ⟨⟨rfl, h2⟩,
    C3_signal_before_write startState 0 [104, 105]
      { state := GateState.UNSIGNALED, waiters := [] } 5 rfl h2⟩

/-- C7: no latching: a reader that calls wait strictly after a signal has
returned is not in the set released by that signal, stays blocked even
though the gate is already SIGNALED at the time of its wait, and is only
released by the next signal. -/
theorem C7_no_latching :
    ∀ (st : CompletionDev) (off off2 : Nat) (data data2 : List Nat)
      (r : Nat),
      st.published = true → r ∉ st.gate.waiters →
      r ∉ (fwrite st off data).2.1 ∧
      (freadEnter (fwrite st off data).1 r).gate.state =
        GateState.SIGNALED ∧
      Gate.blocked (freadEnter (fwrite st off data).1 r).gate r = true ∧
      r ∈ (fwrite (freadEnter (fwrite st off data).1 r) off2 data2).2.1 ∧
      Gate.blocked
        (fwrite (freadEnter (fwrite st off data).1 r) off2 data2).1.gate r =
        false := by
  intro st off off2 data data2 r hp hr
  have hg : (fwrite st off data).1.gate =
      { state := GateState.SIGNALED, waiters := [] } := by
    rw [fwrite_gate, if_pos hp]
    rfl
  have hpub : (fwrite st off data).1.published = true := by
    rw [fwrite_published, hp]
  have hg1 : (freadEnter (fwrite st off data).1 r).gate =
      { state := GateState.SIGNALED, waiters := [r] } := by
    rw [freadEnter, if_pos hpub, hg]
    rfl
  have hpub2 : (freadEnter (fwrite st off data).1 r).published = true := by
    rw [freadEnter_published, hpub]
  have hrel2 : (fwrite (freadEnter (fwrite st off data).1 r) off2
      data2).2.1 = [r] := by
    rw [fwrite_released, if_pos hpub2, hg1]
    rfl
  have hg2 : (fwrite (freadEnter (fwrite st off data).1 r) off2
      data2).1.gate.waiters = [] := by
    rw [fwrite_gate, if_pos hpub2]
    rfl
  refine ⟨?_, ?_, ?_, ?_, ?_⟩
  · rw [fwrite_released, if_pos hp]
    exact hr
  · rw [hg1]
  · rw [hg1]
    simp [Gate.blocked]
  · rw [hrel2]
    simp
  · simp [Gate.blocked, hg2]

/-- C7 witness: the no-latching property instantiated at the start state
with reader 5 and two one-byte writes at offset 0. -/
theorem C7_no_latching_witness :
    (startState.published = true ∧ 5 ∉ startState.gate.waiters) ∧
    (5 ∉ (fwrite startState 0 [1]).2.1 ∧
      (freadEnter (fwrite startState 0 [1]).1 5).gate.state =
        GateState.SIGNALED ∧
      Gate.blocked (freadEnter (fwrite startState 0 [1]).1 5).gate 5 =
        true ∧
      5 ∈ (fwrite (freadEnter (fwrite startState 0 [1]).1 5) 0 [2]).2.1 ∧
      Gate.blocked
          (fwrite (freadEnter (fwrite startState 0 [1]).1 5) 0 [2]).1.gate
          5 =
        false) := by
  have hw : startState.gate.waiters = ([] : List Nat) := rfl
  have hr : (5 : Nat) ∉ startState.gate.waiters := by
    rw [hw]
    simp
  exact ⟨⟨rfl, hr⟩, C7_no_latching startState 0 0 [1] [2] 5 rfl hr⟩

/-- C8: singleton invariant: init registers exactly two aliased endpoint
identities, every open under either identity binds to the same single
global buffer; that buffer is 4096 bytes, zero-initialized at creation,
and its length is preserved by every write and by the blocking phase of
read (never resized). -/
theorem C8_singleton :
    Completiondev.init.minorCount = 2 ∧
    (∀ m1 m2 : Fin 2, RustFile.fopen m1 = RustFile.fopen m2) ∧
    startState.buffer = List.replicate GLOBALMEM_SIZE 0 ∧
    startState.buffer.length = 4096 ∧
    (∀ i, i < GLOBALMEM_SIZE → startState.buffer[i]? = some 0) ∧
    (∀ (st : CompletionDev) (off r : Nat) (data : List Nat),
      st.buffer.length = GLOBALMEM_SIZE →
      (fwrite st off data).1.buffer.length = GLOBALMEM_SIZE ∧
      (freadEnter st r).buffer.length = GLOBALMEM_SIZE) := by
  refine ⟨rfl, fun m1 m2 => rfl, rfl, ?_, ?_, ?_⟩
  · have h : startState.buffer.length = GLOBALMEM_SIZE := by
      simp [startState, Completiondev.init, loadState]
    rw [h]
    rfl
  · intro i hi
    simp only [startState, Completiondev.init, loadState]
    exact List.getElem?_replicate_of_lt hi
  · intro st off r data hlen
    constructor
    · rw [fwrite_buffer]
      split
      · exact hlen
      · rename_i hnot
        refine Eq.trans (writeBytes_length _ _ _ ?_) hlen
        rw [List.length_take]
        omega
    · rw [freadEnter_buffer]
      exact hlen

/-- C8 witness: the length-preservation part of C8 instantiated at the
start state with a one-byte write at offset 0 and reader 3. -/
theorem C8_singleton_witness :
    startState.buffer.length = GLOBALMEM_SIZE ∧
    ((fwrite startState 0 [7]).1.buffer.length = GLOBALMEM_SIZE ∧
      (freadEnter startState 3).buffer.length = GLOBALMEM_SIZE) := by
  have hlen : startState.buffer.length = GLOBALMEM_SIZE := by
    simp [startState, Completiondev.init, loadState]
  exact ⟨hlen, C8_singleton.2.2.2.2.2 startState 0 3 [7] hlen⟩

end Completion
